import Mathlib

/-!
Shallow embedding of the Urban-Heat-Island backend (src/app.py): 7x7 grid
sampling, descriptive statistics, urban-heat-island hotspot detection,
heat-stress classification, Pearson correlation and recommendation
generation. Temperatures and vegetation indices are modelled as real
numbers, grid coordinates as rationals, and Python's `round(x, d)` as exact
rounding of a real number to `d` decimal places.
-/

namespace UHI

/-- Grid offsets used by the 7x7 sweep (src/app.py lines 194, 276, 338). -/
def offsets : List ℚ := [-3/100, -1/50, -1/100, 0, 1/100, 1/50, 3/100]

/-- One cell of the sweep loop body: a provider exception (`Except.error`)
or an absent value (`none`) contributes nothing; a present value contributes
one sample (src/app.py lines 198-209). -/
def sweepPoint (f : ℚ → ℚ → Except ε (Option α)) (la lo : ℚ) : List (ℚ × ℚ × α) :=
  match f la lo with
  | Except.ok (some v) => [(la, lo, v)]
  | Except.ok none => []
  | Except.error _ => []

/-- The 7x7 grid sweep: outer loop over latitude offsets, inner loop over
longitude offsets (src/app.py lines 196-209, 278-296, 340-357). -/
def gridSweep (f : ℚ → ℚ → Except ε (Option α)) (lat lon : ℚ) : List (ℚ × ℚ × α) :=
  offsets.flatMap fun dx => offsets.flatMap fun dy => sweepPoint f (lat + dx) (lon + dy)

/-- Empty-sweep check: the endpoints return a 404-style error when no grid
point produced a sample (src/app.py lines 211-212, 298-299). -/
def sweepResult (msg : String) (f : ℚ → ℚ → Except ε (Option α)) (lat lon : ℚ) :
    Except String (List (ℚ × ℚ × α)) :=
  if (gridSweep f lat lon).isEmpty then Except.error msg else Except.ok (gridSweep f lat lon)

/-- Heat stress category record (src/app.py lines 90-96). -/
structure HeatStress where
  level : String
  color : String
  risk : String
deriving DecidableEq

/-- Heat stress classifier (src/app.py lines 85-96, `categorize_heat_stress`). -/
noncomputable def categorize_heat_stress (temp : Option ℝ) : Option HeatStress :=
  match temp with
  | none => none
  | some t =>
    if t < 30 then some ⟨"Low", "#22c55e", "Minimal heat-related health risks"⟩
    else if t < 38 then
      some ⟨"Moderate", "#eab308", "Caution advised for prolonged outdoor activities"⟩
    else if t < 45 then
      some ⟨"High", "#f97316", "Heat exhaustion possible with extended exposure"⟩
    else some ⟨"Extreme", "#ef4444", "Heat stroke risk - limit outdoor activities"⟩

/-- A single advisory entry (src/app.py lines 110-144). -/
structure Advisory where
  icon : String
  title : String
  desc : String
deriving DecidableEq

/-- Result of the recommendation generator (src/app.py lines 105, 146). -/
structure Recommendation where
  priority : String
  recommendations : List Advisory
deriving DecidableEq

/-- The temperature-based priority and advisory block of
`generate_recommendations` (src/app.py lines 107-133). -/
noncomputable def tempBand (t : ℝ) : String × List Advisory :=
  if t ≥ 40 then
        ("Critical",
          [⟨"🌳", "Urgent Urban Forestry", "High priority for immediate tree planting programs to provide shade and evaporative cooling."⟩,
           ⟨"🏗️", "Cool Pavement Implementation", "Replace dark asphalt with reflective or permeable cool pavements to reduce heat absorption."⟩,
           ⟨"🏠", "Green Roof Mandate", "Implement green roof requirements for new and existing buildings in this zone."⟩,
           ⟨"💧", "Water Features", "Install fountains, misting systems, or urban water bodies for localized cooling."⟩])
  else if t ≥ 35 then
        ("High",
          [⟨"🌳", "Urban Forestry Priority", "Recommended zone for tree planting initiatives and urban greening projects."⟩,
           ⟨"🏗️", "Cool Materials", "Encourage use of high-albedo roofing and wall materials in construction."⟩,
           ⟨"🏠", "Green Infrastructure", "Promote green roofs, vertical gardens, and permeable surfaces."⟩])
  else if t ≥ 30 then
    ("Moderate",
      [⟨"🌿", "Vegetation Enhancement", "Increase vegetation cover through parks and street plantings."⟩,
       ⟨"🏢", "Building Guidelines", "Recommend reflective building materials for new constructions."⟩])
  else
    ("Low",
      [⟨"✅", "Maintain Current Conditions", "Temperature levels are within comfortable range. Focus on preservation."⟩])

/-- The NDVI-based advisories appended when a vegetation index is available
(src/app.py lines 135-144). -/
noncomputable def appendNdviAdvisories (fmt : ℝ → String) (ndvi : Option ℝ)
    (recs : List Advisory) : List Advisory :=
  match ndvi with
  | some v =>
    if v < 0.2 then
      recs ++ [⟨"🚨", "Critical Vegetation Deficit", "NDVI: " ++ fmt v ++ " - Severely limited vegetation. Urgent need for green space development."⟩]
    else if v < 0.4 then
      recs ++ [⟨"⚠️", "Low Vegetation Cover", "NDVI: " ++ fmt v ++ " - Below optimal vegetation levels. Recommend increased planting."⟩]
    else recs
  | none => recs

/-- Recommendation generator (src/app.py lines 99-146,
`generate_recommendations`). Python's two-decimal f-string interpolation of
the index inside the two vegetation advisories is abstracted by the
formatter argument `fmt`. -/
noncomputable def generate_recommendations (fmt : ℝ → String) (temp ndvi : Option ℝ) :
    Recommendation :=
  match temp with
  | none => ⟨"Low", []⟩
  | some t => ⟨(tempBand t).1, appendNdviAdvisories fmt ndvi (tempBand t).2⟩

/-- Heatmap display intensity: `min(max((lst - 20) / 30, 0), 1)`
(src/app.py line 206). -/
noncomputable def heatIntensity (lst : ℝ) : ℝ := min (max ((lst - 20) / 30) 0) 1

/-- NDVI display intensity: `max(0, min(1, (ndvi + 0.2) / 0.8))`
(src/app.py line 288). -/
noncomputable def ndviIntensity (ndvi : ℝ) : ℝ := max 0 (min 1 ((ndvi + 0.2) / 0.8))

/-- Python's `round(x, d)`: round to `d` decimal places. -/
noncomputable def roundTo (d : ℕ) (x : ℝ) : ℝ :=
  ((round (x * 10 ^ d) : ℤ) : ℝ) / 10 ^ d

/-- Arithmetic mean, `sum(xs) / len(xs)` (src/app.py lines 215, 302, 367-368). -/
noncomputable def mean (xs : List ℝ) : ℝ := xs.sum / xs.length

/-- Sample standard deviation as used at src/app.py line 216,
`statistics.stdev(temps) if len(temps) > 1 else 0`: Bessel-corrected for two
or more samples, 0 otherwise. -/
noncomputable def std_dev (xs : List ℝ) : ℝ :=
  if 1 < xs.length then
    Real.sqrt (((xs.map fun x => (x - mean xs) ^ 2).sum) / (xs.length - 1))
  else 0

/-- UHI detection threshold (src/app.py line 219). -/
noncomputable def uhi_threshold (temps : List ℝ) : ℝ :=
  if std_dev temps > 0 then mean temps + 1.5 * std_dev temps
  else mean temps + 2

/-- One entry of `raw_data` (src/app.py line 204). -/
structure RawPoint where
  lat : ℚ
  lon : ℚ
  temp : ℝ

/-- One served hotspot entry (src/app.py lines 225-231): the temperature and
deviation are rounded to 2 decimals when the entry is built for
serialization. -/
structure Hotspot where
  lat : ℚ
  lon : ℚ
  temp : ℝ
  deviation : ℝ
  heat_stress : Option HeatStress

/-- Hotspot entry built from a raw sample (src/app.py lines 224-231). -/
noncomputable def mkHotspot (avg : ℝ) (p : RawPoint) : Hotspot :=
  ⟨p.lat, p.lon, roundTo 2 p.temp, roundTo 2 (p.temp - avg),
   categorize_heat_stress (some p.temp)⟩

/-- The hotspot entries in grid traversal order: raw points at or above the
threshold (src/app.py lines 222-231). -/
noncomputable def hotspotCandidates (raw : List RawPoint) : List Hotspot :=
  (raw.filter fun p => uhi_threshold (raw.map RawPoint.temp) ≤ p.temp).map
    (mkHotspot (mean (raw.map RawPoint.temp)))

/-- The comparator of the Python stable sort on the temp field with
reverse=True: hotter entries come first (src/app.py line 234). -/
noncomputable def hotspotLe (a b : Hotspot) : Bool := b.temp ≤ a.temp

/-- The served hotspot list: candidates sorted hottest-first by their
(rounded) temperature with Python's stable sort (src/app.py line 234). -/
noncomputable def uhi_hotspots (raw : List RawPoint) : List Hotspot :=
  (hotspotCandidates raw).mergeSort hotspotLe

/-- The heatmap display points `[lat, lon, intensity]` built per sample
(src/app.py lines 205-207). -/
noncomputable def heatmapPoints (samples : List (ℚ × ℚ × ℝ)) : List (ℚ × ℚ × ℝ) :=
  samples.map fun s => (s.1, s.2.1, heatIntensity s.2.2)

/-- One served NDVI display point (src/app.py lines 289-294). -/
structure NdviPoint where
  lat : ℚ
  lon : ℚ
  ndvi : ℝ
  intensity : ℝ

/-- The NDVI display points built per sample (src/app.py lines 285-294). -/
noncomputable def ndviPoints (samples : List (ℚ × ℚ × ℝ)) : List NdviPoint :=
  samples.map fun s => ⟨s.1, s.2.1, roundTo 3 s.2.2, ndviIntensity s.2.2⟩

/-- Response body of the correlation endpoint (src/app.py lines 388-397). -/
structure CorrOut where
  correlation : ℝ
  interpretation : String
  mean_lst : ℝ
  mean_ndvi : ℝ
  sample_size : ℕ

/-- Numerator of Pearson's r, the sum of products of deviations from the
means (src/app.py line 370). -/
noncomputable def pearsonNumerator (xs ys : List ℝ) : ℝ :=
  ((xs.zip ys).map fun p => (p.1 - mean xs) * (p.2 - mean ys)).sum

/-- One denominator factor of Pearson's r: the square root of the sum of
squared deviations (src/app.py lines 371-372). -/
noncomputable def denomFactor (xs : List ℝ) : ℝ :=
  Real.sqrt ((xs.map fun x => (x - mean xs) ^ 2).sum)

/-- Pearson coefficient with the guarded division (src/app.py line 374). -/
noncomputable def pearson (xs ys : List ℝ) : ℝ :=
  if denomFactor xs * denomFactor ys ≠ 0 then
    pearsonNumerator xs ys / (denomFactor xs * denomFactor ys)
  else 0

/-- Interpretation bands for the coefficient (src/app.py lines 377-386). -/
noncomputable def interpretCorrelation (c : ℝ) : String :=
  if c < -0.7 then
    "Strong negative correlation: Higher vegetation strongly associated with lower temperatures"
  else if c < -0.4 then
    "Moderate negative correlation: Vegetation helps reduce surface temperatures"
  else if c < -0.2 then
    "Weak negative correlation: Some cooling effect from vegetation observed"
  else if c < 0.2 then
    "No significant correlation detected in this area"
  else
    "Unexpected positive correlation - may indicate data quality issues or unique local conditions"

/-- The LST series as stored in `paired_data`: rounded to 2 decimals at
collection time (src/app.py lines 352, 363). -/
noncomputable def collectedLst (pairs : List (ℝ × ℝ)) : List ℝ :=
  pairs.map fun p => roundTo 2 p.1

/-- The NDVI series as stored in `paired_data`: rounded to 3 decimals at
collection time (src/app.py lines 353, 364). -/
noncomputable def collectedNdvi (pairs : List (ℝ × ℝ)) : List ℝ :=
  pairs.map fun p => roundTo 3 p.2

/-- The correlation endpoint's computation after pairing (src/app.py lines
359-397): fewer than 3 pairs is the distinct insufficient-data error;
otherwise Pearson's r of the collected series, its interpretation band and
the rounded means are served. -/
noncomputable def correlationResponse (pairs : List (ℝ × ℝ)) : Except String CorrOut :=
  if pairs.length < 3 then Except.error "Insufficient data for correlation analysis"
  else
    Except.ok
      ⟨roundTo 3 (pearson (collectedLst pairs) (collectedNdvi pairs)),
       interpretCorrelation (pearson (collectedLst pairs) (collectedNdvi pairs)),
       roundTo 2 (mean (collectedLst pairs)),
       roundTo 3 (mean (collectedNdvi pairs)),
       pairs.length⟩

/-- The served correlation coefficient, when the endpoint succeeds. -/
noncomputable def servedCorrelation (pairs : List (ℝ × ℝ)) : Option ℝ :=
  match correlationResponse pairs with
  | Except.ok o => some o.correlation
  | Except.error _ => none

/-! ### Helper lemmas -/

theorem tempBand_recs_ne_nil (t : ℝ) : (tempBand t).2 ≠ [] := by
  unfold tempBand
  split_ifs <;> simp

theorem appendNdviAdvisories_ne_nil (fmt : ℝ → String) (ndvi : Option ℝ)
    (recs : List Advisory) (h : recs ≠ []) :
    appendNdviAdvisories fmt ndvi recs ≠ [] := by
  unfold appendNdviAdvisories
  rcases ndvi with _ | v
  · exact h
  · dsimp only
    split_ifs <;> simp [h]

theorem mem_appendNdviAdvisories (fmt : ℝ → String) (ndvi : Option ℝ)
    (recs : List Advisory) (a : Advisory) (h : a ∈ recs) :
    a ∈ appendNdviAdvisories fmt ndvi recs := by
  unfold appendNdviAdvisories
  rcases ndvi with _ | v
  · exact h
  · dsimp only
    split_ifs <;> simp [h]

theorem tempBand_low (t : ℝ) (h : t < 30) :
    tempBand t = ("Low",
      [⟨"✅", "Maintain Current Conditions", "Temperature levels are within comfortable range. Focus on preservation."⟩]) := by
  unfold tempBand
  rw [if_neg (by linarith), if_neg (by linarith), if_neg (by linarith)]

theorem mem_sweepPoint {f : ℚ → ℚ → Except ε (Option α)} {x y a b : ℚ} {v : α} :
    (a, b, v) ∈ sweepPoint f x y ↔ a = x ∧ b = y ∧ f x y = Except.ok (some v) := by
  unfold sweepPoint
  rcases hf : f x y with e | _ | w <;> simp [Prod.ext_iff, eq_comm]

theorem mem_gridSweep {f : ℚ → ℚ → Except ε (Option α)} {lat lon dx dy : ℚ} {v : α}
    (hdx : dx ∈ offsets) (hdy : dy ∈ offsets) :
    (lat + dx, lon + dy, v) ∈ gridSweep f lat lon ↔
      f (lat + dx) (lon + dy) = Except.ok (some v) := by
  unfold gridSweep
  simp only [List.mem_flatMap]
  constructor
  · rintro ⟨dx', _, dy', _, hmem⟩
    rw [mem_sweepPoint] at hmem
    obtain ⟨h1, h2, h3⟩ := hmem
    obtain rfl : dx' = dx := by linarith [add_left_cancel h1]
    obtain rfl : dy' = dy := by linarith [add_left_cancel h2]
    exact h3
  · intro hf
    exact ⟨dx, hdx, dy, hdy, mem_sweepPoint.mpr ⟨rfl, rfl, hf⟩⟩

theorem gridSweep_eq_nil_iff {f : ℚ → ℚ → Except ε (Option α)} {lat lon : ℚ} :
    gridSweep f lat lon = [] ↔
      ∀ dx ∈ offsets, ∀ dy ∈ offsets, ∀ v,
        f (lat + dx) (lon + dy) ≠ Except.ok (some v) := by
  unfold gridSweep
  rw [List.flatMap_eq_nil_iff]
  constructor
  · intro h dx hdx dy hdy v hv
    have h1 := h dx hdx
    rw [List.flatMap_eq_nil_iff] at h1
    have h2 := h1 dy hdy
    simp [sweepPoint, hv] at h2
  · intro h dx hdx
    rw [List.flatMap_eq_nil_iff]
    intro dy hdy
    rcases hf : f (lat + dx) (lon + dy) with e | _ | w
    · simp [sweepPoint, hf]
    · simp [sweepPoint, hf]
    · exact absurd hf (h dx hdx dy hdy w)

theorem mean_const {xs : List ℝ} {c : ℝ} (hne : xs ≠ []) (h : ∀ x ∈ xs, x = c) :
    mean xs = c := by
  unfold mean
  rw [List.sum_eq_card_nsmul xs c h, nsmul_eq_mul]
  have hl : (xs.length : ℝ) ≠ 0 := by
    simpa using hne
  field_simp

theorem sq_dev_sum_eq_zero {xs : List ℝ} {c : ℝ} (h : ∀ x ∈ xs, x = c) :
    ((xs.map fun x => (x - mean xs) ^ 2).sum) = 0 := by
  rcases eq_or_ne xs [] with rfl | hne
  · simp
  · have hm : mean xs = c := mean_const hne h
    refine List.sum_eq_zero fun y hy => ?_
    simp only [List.mem_map] at hy
    obtain ⟨x, hx, rfl⟩ := hy
    rw [h x hx, hm, sub_self]
    ring

theorem std_dev_const {xs : List ℝ} {c : ℝ} (h : ∀ x ∈ xs, x = c) :
    std_dev xs = 0 := by
  unfold std_dev
  split_ifs with hl
  · rw [sq_dev_sum_eq_zero h, zero_div, Real.sqrt_zero]
  · rfl

theorem denomFactor_const {xs : List ℝ} {c : ℝ} (h : ∀ x ∈ xs, x = c) :
    denomFactor xs = 0 := by
  unfold denomFactor
  rw [sq_dev_sum_eq_zero h, Real.sqrt_zero]

theorem uhi_threshold_const {xs : List ℝ} {c : ℝ} (hne : xs ≠ []) (h : ∀ x ∈ xs, x = c) :
    uhi_threshold xs = c + 2 := by
  unfold uhi_threshold
  rw [std_dev_const h, mean_const hne h]
  norm_num

theorem roundTo_zero (d : ℕ) : roundTo d 0 = 0 := by
  simp [roundTo]

/-! ### Claim theorems -/

theorem hotspotLe_trans (a b c : Hotspot) (h1 : hotspotLe a b) (h2 : hotspotLe b c) :
    hotspotLe a c := by
  simp only [hotspotLe, decide_eq_true_eq] at h1 h2 ⊢
  exact le_trans h2 h1

theorem hotspotLe_total (a b : Hotspot) : hotspotLe a b || hotspotLe b a := by
  simp only [hotspotLe, Bool.or_eq_true, decide_eq_true_eq]
  exact le_total b.temp a.temp

/-- C1: for a sample list with mean μ and sample standard deviation σ the
detector uses threshold μ + 1.5σ when σ > 0 and μ + 2 when σ = 0; an entry
for a raw point is served exactly when its value is ≥ the threshold; each
served entry carries deviation = value − μ (rounded to 2 decimals for
serialization, as its temperature is); and the served list is sorted by its
temperature field descending, ties staying in original grid order (the
filtered list agrees with the candidate list on every temperature class). -/
theorem uhi_hotspot_detector (raw : List RawPoint) (hne : raw ≠ []) :
    (0 < std_dev (raw.map RawPoint.temp) →
      uhi_threshold (raw.map RawPoint.temp) =
        mean (raw.map RawPoint.temp) + 1.5 * std_dev (raw.map RawPoint.temp)) ∧
    (std_dev (raw.map RawPoint.temp) = 0 →
      uhi_threshold (raw.map RawPoint.temp) = mean (raw.map RawPoint.temp) + 2) ∧
    (∀ x : Hotspot, x ∈ uhi_hotspots raw ↔
      ∃ p ∈ raw, uhi_threshold (raw.map RawPoint.temp) ≤ p.temp ∧
        x = mkHotspot (mean (raw.map RawPoint.temp)) p) ∧
    (∀ x ∈ uhi_hotspots raw,
      ∃ p ∈ raw, x.deviation = roundTo 2 (p.temp - mean (raw.map RawPoint.temp)) ∧
        x.temp = roundTo 2 p.temp) ∧
    (uhi_hotspots raw).Pairwise (fun a b => b.temp ≤ a.temp) ∧
    (∀ v : ℝ, (uhi_hotspots raw).filter (fun x => x.temp = v) =
      (hotspotCandidates raw).filter (fun x => x.temp = v)) := by
  have hmem : ∀ x : Hotspot, x ∈ uhi_hotspots raw ↔
      ∃ p ∈ raw, uhi_threshold (raw.map RawPoint.temp) ≤ p.temp ∧
        x = mkHotspot (mean (raw.map RawPoint.temp)) p := by
    intro x
    simp only [uhi_hotspots, List.mem_mergeSort, hotspotCandidates, List.mem_map,
      List.mem_filter, decide_eq_true_eq]
    constructor
    · rintro ⟨p, ⟨hp, ht⟩, he⟩
      exact ⟨p, hp, ht, he.symm⟩
    · rintro ⟨p, hp, ht, he⟩
      exact ⟨p, ⟨hp, ht⟩, he.symm⟩
  refine ⟨fun h => ?_, fun h => ?_, hmem, ?_, ?_, ?_⟩
  · unfold uhi_threshold
    rw [if_pos h]
  · unfold uhi_threshold
    rw [if_neg (by rw [h]; exact lt_irrefl 0)]
  · intro x hx
    obtain ⟨p, hp, ht, rfl⟩ := (hmem x).mp hx
    exact ⟨p, hp, rfl, rfl⟩
  · have hs := List.sorted_mergeSort hotspotLe_trans hotspotLe_total (hotspotCandidates raw)
    refine List.Pairwise.imp ?_ hs
    intro a b hab
    simpa [hotspotLe] using hab
  · intro v
    have hpair : ((hotspotCandidates raw).filter (fun x => decide (x.temp = v))).Pairwise
        (fun a b => hotspotLe a b = true) := by
      apply List.pairwise_of_forall_mem_list
      intro a ha b hb
      have hav := (List.mem_filter.mp ha).2
      have hbv := (List.mem_filter.mp hb).2
      simp only [decide_eq_true_eq] at hav hbv
      simp [hotspotLe, hav, hbv]
    have hsub : List.Sublist ((hotspotCandidates raw).filter (fun x => decide (x.temp = v)))
        (uhi_hotspots raw) :=
      List.sublist_mergeSort hotspotLe_trans hotspotLe_total hpair
        (List.filter_sublist _)
    have hfix : ((hotspotCandidates raw).filter (fun x => decide (x.temp = v))).filter
        (fun x => decide (x.temp = v)) =
        (hotspotCandidates raw).filter (fun x => decide (x.temp = v)) :=
      List.filter_eq_self.mpr fun a ha => (List.mem_filter.mp ha).2
    have hsub2 : List.Sublist ((hotspotCandidates raw).filter (fun x => decide (x.temp = v)))
        ((uhi_hotspots raw).filter (fun x => decide (x.temp = v))) := by
      have h2 := hsub.filter fun x => decide (x.temp = v)
      rwa [hfix] at h2
    have hperm : List.Perm ((uhi_hotspots raw).filter (fun x => decide (x.temp = v)))
        ((hotspotCandidates raw).filter (fun x => decide (x.temp = v))) :=
      (List.mergeSort_perm (hotspotCandidates raw) hotspotLe).filter _
    exact (hsub2.eq_of_length hperm.length_eq.symm).symm

/-- Witness for C1 on a two-point sample set with positive deviation. -/
theorem uhi_hotspot_detector_witness :
    uhi_threshold (([⟨0, 0, 10⟩, ⟨0, 0, 40⟩] : List RawPoint).map RawPoint.temp) =
      mean (([⟨0, 0, 10⟩, ⟨0, 0, 40⟩] : List RawPoint).map RawPoint.temp) +
        1.5 * std_dev (([⟨0, 0, 10⟩, ⟨0, 0, 40⟩] : List RawPoint).map RawPoint.temp) :=
  (uhi_hotspot_detector [⟨0, 0, 10⟩, ⟨0, 0, 40⟩] (by simp)).1 (by
    have hm : mean (([⟨0, 0, 10⟩, ⟨0, 0, 40⟩] : List RawPoint).map RawPoint.temp) = 25 := by
      simp [mean]
      norm_num
    unfold std_dev
    rw [if_pos (by simp)]
    apply Real.sqrt_pos.mpr
    rw [hm]
    simp
    norm_num)

/-- C7: on a constant non-empty sample set (all collected temperatures equal
to v) the detector flags nothing: the standard deviation is 0, the threshold
becomes v + 2, and the hotspot list is empty. -/
theorem constant_samples_no_hotspots (raw : List RawPoint) (v : ℝ)
    (hne : raw ≠ []) (hall : ∀ p ∈ raw, p.temp = v) :
    std_dev (raw.map RawPoint.temp) = 0 ∧
    uhi_threshold (raw.map RawPoint.temp) = v + 2 ∧
    uhi_hotspots raw = [] := by
  have htem : ∀ x ∈ raw.map RawPoint.temp, x = v := by
    intro x hx
    simp only [List.mem_map] at hx
    obtain ⟨p, hp, rfl⟩ := hx
    exact hall p hp
  have hmne : raw.map RawPoint.temp ≠ [] := by
    simpa using hne
  have hthr : uhi_threshold (raw.map RawPoint.temp) = v + 2 :=
    uhi_threshold_const hmne htem
  refine ⟨std_dev_const htem, hthr, ?_⟩
  have hcand : hotspotCandidates raw = [] := by
    unfold hotspotCandidates
    rw [List.filter_eq_nil_iff.mpr ?_, List.map_nil]
    intro p hp
    rw [hthr, hall p hp]
    simp only [decide_eq_true_eq, not_le]
    linarith
  unfold uhi_hotspots
  rw [hcand, List.mergeSort_nil]

/-- Witness for C7: two samples at 25 °C produce an empty hotspot list. -/
theorem constant_samples_no_hotspots_witness :
    std_dev (([⟨0, 0, 25⟩, ⟨1/100, 0, 25⟩] : List RawPoint).map RawPoint.temp) = 0 ∧
    uhi_threshold (([⟨0, 0, 25⟩, ⟨1/100, 0, 25⟩] : List RawPoint).map RawPoint.temp) = 25 + 2 ∧
    uhi_hotspots [⟨0, 0, 25⟩, ⟨1/100, 0, 25⟩] = [] :=
  constant_samples_no_hotspots [⟨0, 0, 25⟩, ⟨1/100, 0, 25⟩] 25 (by simp) (by simp)

/-- C6: with at least 3 pairs and a zero-variance series, the guarded
Pearson division is never taken: the denominator product is 0, the
coefficient is defined to be 0, and the endpoint serves correlation 0. -/
theorem correlation_zero_variance (pairs : List (ℝ × ℝ)) (h3 : 3 ≤ pairs.length)
    (hconst : (∃ c, ∀ p ∈ pairs, p.1 = c) ∨ (∃ c, ∀ p ∈ pairs, p.2 = c)) :
    denomFactor (collectedLst pairs) * denomFactor (collectedNdvi pairs) = 0 ∧
    pearson (collectedLst pairs) (collectedNdvi pairs) = 0 ∧
    servedCorrelation pairs = some 0 := by
  have hd : denomFactor (collectedLst pairs) * denomFactor (collectedNdvi pairs) = 0 := by
    rcases hconst with ⟨c, hc⟩ | ⟨c, hc⟩
    · have h0 : ∀ x ∈ collectedLst pairs, x = roundTo 2 c := by
        intro x hx
        simp only [collectedLst, List.mem_map] at hx
        obtain ⟨p, hp, rfl⟩ := hx
        rw [hc p hp]
      rw [denomFactor_const h0, zero_mul]
    · have h0 : ∀ x ∈ collectedNdvi pairs, x = roundTo 3 c := by
        intro x hx
        simp only [collectedNdvi, List.mem_map] at hx
        obtain ⟨p, hp, rfl⟩ := hx
        rw [hc p hp]
      rw [denomFactor_const h0, mul_zero]
  have hp0 : pearson (collectedLst pairs) (collectedNdvi pairs) = 0 := by
    unfold pearson
    rw [if_neg (not_not.mpr hd)]
  refine ⟨hd, hp0, ?_⟩
  unfold servedCorrelation correlationResponse
  rw [if_neg (by omega)]
  simp [hp0, roundTo_zero]

/-- Witness for C6: three pairs with a constant temperature series. -/
theorem correlation_zero_variance_witness :
    servedCorrelation [(5, 1/10), (5, 2/10), (5, 3/10)] = some 0 :=
  (correlation_zero_variance [(5, 1/10), (5, 2/10), (5, 3/10)] (by simp)
    (Or.inl ⟨5, by simp⟩)).2.2

/-- C3: a provider failure or an absent value at a single grid point only
removes that point from the sample set (a sample for an offset pair is
present exactly when the provider succeeded there), and the sweep answers
the 404-style no-data error exactly when every one of the 49 points was
excluded. -/
theorem sweep_skips_failed_points (f : ℚ → ℚ → Except ε (Option α)) (msg : String)
    (lat lon dx dy : ℚ) (hdx : dx ∈ offsets) (hdy : dy ∈ offsets) :
    (∀ v, (lat + dx, lon + dy, v) ∈ gridSweep f lat lon ↔
      f (lat + dx) (lon + dy) = Except.ok (some v)) ∧
    (sweepResult msg f lat lon = Except.error msg ↔
      ∀ dx' ∈ offsets, ∀ dy' ∈ offsets, ∀ v,
        f (lat + dx') (lon + dy') ≠ Except.ok (some v)) := by
  refine ⟨fun v => mem_gridSweep hdx hdy, ?_⟩
  unfold sweepResult
  split_ifs with he
  · exact iff_of_true rfl (gridSweep_eq_nil_iff.mp (List.isEmpty_iff.mp he))
  · refine iff_of_false (by simp) fun hall => ?_
    exact he (List.isEmpty_iff.mpr (gridSweep_eq_nil_iff.mpr hall))

/-- Witness for C3: a provider that always raises makes the sweep return the
404-style empty-sweep error. -/
theorem sweep_skips_failed_points_witness :
    sweepResult "No valid data found for this area"
        (fun _ _ => (Except.error () : Except Unit (Option ℝ))) 0 0 =
      Except.error "No valid data found for this area" :=
  ((sweep_skips_failed_points (fun _ _ => (Except.error () : Except Unit (Option ℝ)))
      "No valid data found for this area" 0 0 0 0 (by norm_num [offsets]) (by norm_num [offsets])).2).mpr
    (fun _ _ _ _ v h => Except.noConfusion h)

/-- C2: the heat-stress classifier is a total function on temperatures with
bands t < 30 → Low, 30 ≤ t < 38 → Moderate, 38 ≤ t < 45 → High,
t ≥ 45 → Extreme; the boundaries are closed on the upper band
(30 → Moderate, 38 → High, 45 → Extreme); each band carries its fixed risk
text; and an absent input yields an absent output. -/
theorem categorize_heat_stress_total (t : ℝ) :
    (t < 30 → categorize_heat_stress (some t) =
      some ⟨"Low", "#22c55e", "Minimal heat-related health risks"⟩) ∧
    (30 ≤ t → t < 38 → categorize_heat_stress (some t) =
      some ⟨"Moderate", "#eab308", "Caution advised for prolonged outdoor activities"⟩) ∧
    (38 ≤ t → t < 45 → categorize_heat_stress (some t) =
      some ⟨"High", "#f97316", "Heat exhaustion possible with extended exposure"⟩) ∧
    (45 ≤ t → categorize_heat_stress (some t) =
      some ⟨"Extreme", "#ef4444", "Heat stroke risk - limit outdoor activities"⟩) ∧
    categorize_heat_stress (some 30) =
      some ⟨"Moderate", "#eab308", "Caution advised for prolonged outdoor activities"⟩ ∧
    categorize_heat_stress (some 38) =
      some ⟨"High", "#f97316", "Heat exhaustion possible with extended exposure"⟩ ∧
    categorize_heat_stress (some 45) =
      some ⟨"Extreme", "#ef4444", "Heat stroke risk - limit outdoor activities"⟩ ∧
    categorize_heat_stress none = none := by
  refine ⟨fun h => ?_, fun h1 h2 => ?_, fun h1 h2 => ?_, fun h => ?_, ?_, ?_, ?_, rfl⟩ <;>
      simp only [categorize_heat_stress]
  · rw [if_pos h]
  · rw [if_neg (by linarith), if_pos h2]
  · rw [if_neg (by linarith), if_neg (by linarith), if_pos h2]
  · rw [if_neg (by linarith), if_neg (by linarith), if_neg (by linarith)]
  · norm_num
  · norm_num
  · norm_num

/-- Witness for C2: the classifier at the concrete temperature 25 °C. -/
theorem categorize_heat_stress_total_witness :
    categorize_heat_stress (some 25) =
      some ⟨"Low", "#22c55e", "Minimal heat-related health risks"⟩ :=
  (categorize_heat_stress_total 25).1 (by norm_num)

/-- C4: with fewer than 3 collected pairs the correlation endpoint returns
the distinct insufficient-data error and no numeric result at all. -/
theorem correlation_insufficient_pairs (pairs : List (ℝ × ℝ))
    (h : pairs.length < 3) :
    correlationResponse pairs =
      Except.error "Insufficient data for correlation analysis" ∧
    ∀ out : CorrOut, correlationResponse pairs ≠ Except.ok out := by
  constructor
  · rw [correlationResponse, if_pos h]
  · intro out hc
    rw [correlationResponse, if_pos h] at hc
    exact Except.noConfusion hc

/-- Witness for C4: two pairs trigger the insufficient-data error. -/
theorem correlation_insufficient_pairs_witness :
    correlationResponse [(30, 0.1), (31, 0.2)] =
      Except.error "Insufficient data for correlation analysis" :=
  (correlation_insufficient_pairs [(30, 0.1), (31, 0.2)] (by simp)).1

/-- C8: for every vegetation-index argument, the recommendation generator on
an absent temperature returns priority Low together with an empty
recommendation list (in particular no Maintain Current Conditions entry). -/
theorem generate_recommendations_absent_temp (fmt : ℝ → String) (ndvi : Option ℝ) :
    generate_recommendations fmt none ndvi = ⟨"Low", []⟩ := rfl

/-- C10: for every present temperature the recommendation generator returns a
non-empty advisory list; below 30 °C the temperature-based part is exactly
the single Maintain Current Conditions entry (so the whole list is that
singleton when no vegetation index is supplied, and always contains it);
hence an empty list occurs only for an absent temperature. -/
theorem generate_recommendations_present_nonempty (fmt : ℝ → String) (t : ℝ)
    (ndvi : Option ℝ) :
    (generate_recommendations fmt (some t) ndvi).recommendations ≠ [] ∧
    (t < 30 →
      (⟨"✅", "Maintain Current Conditions", "Temperature levels are within comfortable range. Focus on preservation."⟩ : Advisory) ∈
        (generate_recommendations fmt (some t) ndvi).recommendations) ∧
    (t < 30 → ndvi = none →
      (generate_recommendations fmt (some t) ndvi).recommendations =
        [⟨"✅", "Maintain Current Conditions", "Temperature levels are within comfortable range. Focus on preservation."⟩]) := by
  refine ⟨?_, fun h => ?_, fun h hn => ?_⟩
  · exact appendNdviAdvisories_ne_nil fmt ndvi _ (tempBand_recs_ne_nil t)
  · exact mem_appendNdviAdvisories fmt ndvi _ _ (by rw [tempBand_low t h]; simp)
  · subst hn
    show appendNdviAdvisories fmt none (tempBand t).2 = _
    rw [tempBand_low t h]
    rfl

/-- Witness for C10 at temperature 20 °C with no vegetation index. -/
theorem generate_recommendations_present_nonempty_witness :
    (generate_recommendations (fun _ => "") (some 20) none).recommendations =
      [⟨"✅", "Maintain Current Conditions", "Temperature levels are within comfortable range. Focus on preservation."⟩] :=
  (generate_recommendations_present_nonempty (fun _ => "") 20 none).2.2
    (by norm_num) rfl

/-- C9: every display point emitted by the heatmap and NDVI layers carries a
clamped intensity in [0, 1], whatever value the provider returned. -/
theorem intensity_clamped (samples : List (ℚ × ℚ × ℝ)) :
    (∀ q ∈ heatmapPoints samples, 0 ≤ q.2.2 ∧ q.2.2 ≤ 1) ∧
    (∀ q ∈ ndviPoints samples, 0 ≤ q.intensity ∧ q.intensity ≤ 1) := by
  constructor
  · intro q hq
    simp only [heatmapPoints, List.mem_map] at hq
    obtain ⟨s, _, rfl⟩ := hq
    exact ⟨le_min (le_max_right _ _) zero_le_one, min_le_right _ _⟩
  · intro q hq
    simp only [ndviPoints, List.mem_map] at hq
    obtain ⟨s, _, rfl⟩ := hq
    exact ⟨le_max_left _ _, max_le zero_le_one (min_le_left _ _)⟩

/-- Witness for C9: a 57 °C sample yields an intensity inside [0, 1]. -/
theorem intensity_clamped_witness :
    0 ≤ heatIntensity 57 ∧ heatIntensity 57 ≤ 1 :=
  (intensity_clamped [(0, 0, 57)]).1 (0, 0, heatIntensity 57)
    (by simp [heatmapPoints])

theorem roundTo_two_eval_a : roundTo 2 (1/250 : ℝ) = 0 := by
  unfold roundTo
  norm_num [round_eq]

theorem roundTo_two_eval_b : roundTo 2 (1/125 : ℝ) = 1/100 := by
  unfold roundTo
  norm_num [round_eq]

theorem roundTo_three_eval_a : roundTo 3 (1/10 : ℝ) = 1/10 := by
  unfold roundTo
  norm_num [round_eq]

theorem roundTo_three_eval_b : roundTo 3 (1/5 : ℝ) = 1/5 := by
  unfold roundTo
  norm_num [round_eq]

theorem roundTo_three_one : roundTo 3 (1 : ℝ) = 1 := by
  unfold roundTo
  norm_num [round_eq]

theorem exampleCollectedLst :
    collectedLst [(0, 0), (1/250, 1/10), (1/125, 1/5)] = [0, 0, 1/100] := by
  simp [collectedLst, roundTo_zero]
  constructor
  · simpa using roundTo_two_eval_a
  · simpa using roundTo_two_eval_b

theorem exampleCollectedNdvi :
    collectedNdvi [(0, 0), (1/250, 1/10), (1/125, 1/5)] = [0, 1/10, 1/5] := by
  simp [collectedNdvi, roundTo_zero]
  constructor
  · simpa using roundTo_three_eval_a
  · simpa using roundTo_three_eval_b

theorem mean_rounded_example : mean [0, 0, 1/100] = 1/300 := by
  simp [mean]
  norm_num

theorem mean_raw_example : mean [0, 1/250, 1/125] = 1/250 := by
  simp [mean]
  norm_num

theorem mean_ndvi_example : mean [0, 1/10, 1/5] = 1/10 := by
  simp [mean]
  norm_num

theorem denomFactor_rounded_example :
    denomFactor [0, 0, 1/100] = Real.sqrt (1/15000) := by
  unfold denomFactor
  rw [mean_rounded_example]
  norm_num

theorem denomFactor_raw_example :
    denomFactor [0, 1/250, 1/125] = Real.sqrt (1/31250) := by
  unfold denomFactor
  rw [mean_raw_example]
  norm_num

theorem denomFactor_ndvi_example :
    denomFactor [0, 1/10, 1/5] = Real.sqrt (1/50) := by
  unfold denomFactor
  rw [mean_ndvi_example]
  norm_num

theorem numerator_rounded_example :
    pearsonNumerator [0, 0, 1/100] [0, 1/10, 1/5] = 1/1000 := by
  unfold pearsonNumerator
  rw [mean_rounded_example, mean_ndvi_example]
  norm_num [List.zip]

theorem numerator_raw_example :
    pearsonNumerator [0, 1/250, 1/125] [0, 1/10, 1/5] = 1/1250 := by
  unfold pearsonNumerator
  rw [mean_raw_example, mean_ndvi_example]
  norm_num [List.zip]

theorem pearson_rounded_example :
    pearson [0, 0, 1/100] [0, 1/10, 1/5] = Real.sqrt 3 / 2 := by
  have hprod : denomFactor [0, 0, 1/100] * denomFactor [0, 1/10, 1/5] =
      Real.sqrt 3 * (1/1500) := by
    rw [denomFactor_rounded_example, denomFactor_ndvi_example,
      ← Real.sqrt_mul (by norm_num : (0:ℝ) ≤ 1/15000),
      show (1/15000 * (1/50) : ℝ) = 3 * (1/1500)^2 by norm_num,
      Real.sqrt_mul (by norm_num : (0:ℝ) ≤ 3), Real.sqrt_sq (by norm_num : (0:ℝ) ≤ 1/1500)]
  have hs3 : Real.sqrt 3 ≠ 0 := by
    have := Real.sqrt_pos.mpr (show (0:ℝ) < 3 by norm_num)
    linarith
  have hsq : Real.sqrt 3 ^ 2 = 3 := Real.sq_sqrt (by norm_num)
  have hne : denomFactor [0, 0, 1/100] * denomFactor [0, 1/10, 1/5] ≠ 0 := by
    rw [hprod]
    positivity
  unfold pearson
  rw [if_pos hne, numerator_rounded_example, hprod]
  field_simp
  nlinarith [hsq]

theorem pearson_raw_example :
    pearson [0, 1/250, 1/125] [0, 1/10, 1/5] = 1 := by
  have hprod : denomFactor [0, 1/250, 1/125] * denomFactor [0, 1/10, 1/5] = 1/1250 := by
    rw [denomFactor_raw_example, denomFactor_ndvi_example,
      ← Real.sqrt_mul (by norm_num : (0:ℝ) ≤ 1/31250),
      show (1/31250 * (1/50) : ℝ) = (1/1250)^2 by norm_num,
      Real.sqrt_sq (by norm_num : (0:ℝ) ≤ 1/1250)]
  have hne : denomFactor [0, 1/250, 1/125] * denomFactor [0, 1/10, 1/5] ≠ 0 := by
    rw [hprod]
    norm_num
  unfold pearson
  rw [if_pos hne, numerator_raw_example, hprod]
  norm_num

theorem roundTo_three_sqrt3_half : roundTo 3 (Real.sqrt 3 / 2) = 433/500 := by
  have hs : Real.sqrt 3 ^ 2 = 3 := Real.sq_sqrt (by norm_num)
  have hpos : (0:ℝ) ≤ Real.sqrt 3 := Real.sqrt_nonneg 3
  have h1 : (433/250 : ℝ) ≤ Real.sqrt 3 := by nlinarith [hs, hpos]
  have h2 : Real.sqrt 3 < 1733/1000 := by nlinarith [hs, hpos]
  have h866 : round (Real.sqrt 3 / 2 * 10 ^ 3) = (866 : ℤ) := by
    rw [show (Real.sqrt 3 / 2 * 10 ^ 3 : ℝ) = 500 * Real.sqrt 3 by ring,
      round_eq, Int.floor_eq_iff]
    constructor <;> push_cast <;> nlinarith [h1, h2]
  unfold roundTo
  rw [h866]
  norm_num

/-- C5 (amended): the 2-decimal (LST) and 3-decimal (NDVI) rounding is
applied when each pair is collected into paired_data, before any
statistics; the Pearson coefficient, its interpretation band, mean_lst and
mean_ndvi are all computed from those already-rounded series; the served
correlation equals (up to the final 3-decimal output rounding) Pearson's r
of the rounded — not the raw — series. -/
theorem correlation_computed_on_rounded_series (pairs : List (ℝ × ℝ))
    (h3 : 3 ≤ pairs.length) :
    servedCorrelation pairs =
      some (roundTo 3 (pearson (pairs.map fun p => roundTo 2 p.1)
        (pairs.map fun p => roundTo 3 p.2))) ∧
    correlationResponse pairs = Except.ok
      ⟨roundTo 3 (pearson (pairs.map fun p => roundTo 2 p.1)
          (pairs.map fun p => roundTo 3 p.2)),
        interpretCorrelation (pearson (pairs.map fun p => roundTo 2 p.1)
          (pairs.map fun p => roundTo 3 p.2)),
        roundTo 2 (mean (pairs.map fun p => roundTo 2 p.1)),
        roundTo 3 (mean (pairs.map fun p => roundTo 3 p.2)),
        pairs.length⟩ := by
  have hn : ¬ pairs.length < 3 := by omega
  constructor
  · unfold servedCorrelation correlationResponse
    rw [if_neg hn]
    rfl
  · unfold correlationResponse
    rw [if_neg hn]
    rfl

/-- Witness for the amended C5 on three concrete pairs. -/
theorem correlation_computed_on_rounded_series_witness :
    servedCorrelation [(30, 1/10), (31, 1/5), (32, 3/10)] =
      some (roundTo 3 (pearson
        (([(30, 1/10), (31, 1/5), (32, 3/10)] : List (ℝ × ℝ)).map fun p => roundTo 2 p.1)
        (([(30, 1/10), (31, 1/5), (32, 3/10)] : List (ℝ × ℝ)).map fun p => roundTo 3 p.2))) :=
  (correlation_computed_on_rounded_series [(30, 1/10), (31, 1/5), (32, 3/10)]
    (by simp)).1

/-- Counterexample to C5 as stated: for collected raw pairs
(0, 0), (0.004, 0.1), (0.008, 0.2) the endpoint serves correlation
0.866 — Pearson's r of the series rounded at collection time — while
Pearson's r of the unrounded series is exactly 1 (the raw temperatures are
perfectly linear in the indices), so the served value is not the rounding
of the full-precision coefficient. -/
theorem correlation_full_precision_counterexample :
    servedCorrelation [(0, 0), (1/250, 1/10), (1/125, 1/5)] = some (433/500) ∧
    roundTo 3 (pearson
      (([(0, 0), (1/250, 1/10), (1/125, 1/5)] : List (ℝ × ℝ)).map Prod.fst)
      (([(0, 0), (1/250, 1/10), (1/125, 1/5)] : List (ℝ × ℝ)).map Prod.snd)) = 1 ∧
    (433/500 : ℝ) ≠ 1 := by
  refine ⟨?_, ?_, by norm_num⟩
  · unfold servedCorrelation correlationResponse
    rw [if_neg (by norm_num)]
    rw [exampleCollectedLst, exampleCollectedNdvi, pearson_rounded_example,
      roundTo_three_sqrt3_half]
  · have h1 : (([(0, 0), (1/250, 1/10), (1/125, 1/5)] : List (ℝ × ℝ)).map Prod.fst) =
        [0, 1/250, 1/125] := by simp
    have h2 : (([(0, 0), (1/250, 1/10), (1/125, 1/5)] : List (ℝ × ℝ)).map Prod.snd) =
        [0, 1/10, 1/5] := by simp
    rw [h1, h2, pearson_raw_example, roundTo_three_one]

end UHI
